import Mathlib

/-!
Verification development for the nvim-javagenie relationship-field generator.

The Python sources under `rplugin/python3` are embedded shallowly:
pure string-composition functions become Lean functions on `String`,
the tree-sitter tree is modelled by the data the code actually reads from it,
stateful buffer updates become explicit state passing over a file-system map,
and fallible code returns `Except String`.

Python string conventions used throughout the embedding:
`str.lower()` / `str.upper()` are modelled on the ASCII range `A-Z` / `a-z`
(the only characters the generators feed them), `str.endswith` is suffix
testing on the character list, and slicing `s[:-n]` drops the last `n`
characters.  Braces and apostrophes inside string literals are written with
`\x7b`, `\x7d` and `\x27` escapes; the denoted strings are unchanged.
-/

/-- The 26 ASCII uppercase letters, the character class `[A-Z]` of the snake-case regex. -/
def upperAZ : List Char :=
  ['A', 'B', 'C', 'D', 'E', 'F', 'G', 'H', 'I', 'J', 'K', 'L', 'M',
   'N', 'O', 'P', 'Q', 'R', 'S', 'T', 'U', 'V', 'W', 'X', 'Y', 'Z']

/-- The 26 ASCII lowercase letters. -/
def lowerAZ : List Char :=
  ['a', 'b', 'c', 'd', 'e', 'f', 'g', 'h', 'i', 'j', 'k', 'l', 'm',
   'n', 'o', 'p', 'q', 'r', 's', 't', 'u', 'v', 'w', 'x', 'y', 'z']

/-- Whether a character is an ASCII uppercase letter (`[A-Z]`). -/
def pyIsUpperAZ (c : Char) : Bool := upperAZ.contains c

/-- Whether a character is an ASCII lowercase letter (`[a-z]`). -/
def pyIsLowerAZ (c : Char) : Bool := lowerAZ.contains c

/-- Python `str.lower()` on a single character, restricted to ASCII. -/
def pyLowerChar (c : Char) : Char :=
  if pyIsUpperAZ c then Char.ofNat (c.toNat + 32) else c

/-- Python `str.upper()` on a single character, restricted to ASCII. -/
def pyUpperChar (c : Char) : Char :=
  if pyIsLowerAZ c then Char.ofNat (c.toNat - 32) else c

/-- Python `str.lower()` (ASCII model). -/
def pyLower (s : String) : String := ⟨s.data.map pyLowerChar⟩

/-- Python `str.upper()` (ASCII model). -/
def pyUpper (s : String) : String := ⟨s.data.map pyUpperChar⟩

/-- Python `str.title()` for the single lowercase words it is applied to
(`"set"`, `"list"`, `"collection"`): capitalize the first character. -/
def pyTitle (s : String) : String :=
  match s.data with
  | [] => ""
  | c :: cs => ⟨pyUpperChar c :: cs⟩

/-- Python `sep.join(parts)`. -/
def pyJoin (sep : String) : List String → String
  | [] => ""
  | [x] => x
  | x :: xs => x ++ sep ++ pyJoin sep xs

/-- Python `str(b).lower()` for a boolean `b`: `"true"` or `"false"`. -/
def pyBoolStr (b : Bool) : String := if b then "true" else "false"

/-- Python `word.endswith(p)`: `p` is a suffix of `word`. -/
def pyEndsWith (w p : String) : Bool := decide (p.data <:+ w.data)

/-- Python slicing `w[:-n]` for `0 ≤ n`: drop the last `n` characters. -/
def pyDropLast (w : String) (n : Nat) : String := ⟨w.data.take (w.data.length - n)⟩

/-- Guard `word[-2] not in "aeiou"` of `pluralize`.  For words of length less
than two Python would raise `IndexError` on `word[-2]`; the model returns
`false` there (no claim touches that case, since the guard is only reached
behind `word.endswith("y")`, and the claims concern longer words). -/
def pySecondLastNotVowel (w : String) : Bool :=
  match w.data.reverse with
  | _ :: c :: _ => !("aeiou".data.contains c)
  | _ => false

/-- `CommonHelper.pluralize` (lib/commonhelper.py lines 35-51): suffix rules
`s/sh/ch/x/z → +es`, consonant-`y → ies`, trailing `f → ves`, trailing
`fe → ves`, default `+s`, in exactly this branch order. -/
def pluralize (word : String) : String :=
  if pyEndsWith word "s" || pyEndsWith word "sh" || pyEndsWith word "ch"
      || pyEndsWith word "x" || pyEndsWith word "z" then
    word ++ "es"
  else if pyEndsWith word "y" && pySecondLastNotVowel word then
    pyDropLast word 1 ++ "ies"
  else if pyEndsWith word "f" then
    pyDropLast word 1 ++ "ves"
  else if pyEndsWith word "fe" then
    pyDropLast word 2 ++ "ves"
  else
    word ++ "s"

/-- `CommonHelper.generate_field_name` (lib/commonhelper.py lines 53-64):
optionally pluralize, then lower-case only the first character.
Python `field_name[0]` would raise on the empty string; the model returns
`""` there. -/
def generate_field_name (field_type : String) (plural : Bool) : String :=
  let field_name := if plural then pluralize field_type else field_type
  match field_name.data with
  | [] => ""
  | c :: cs => ⟨pyLowerChar c :: cs⟩

/-- Helper for the regex `sub(r"(?<!^)(?=[A-Z])", "_", s)`: on the tail of the
string (every position except the very first, excluded by `(?<!^)`), insert
an underscore before each ASCII uppercase character. -/
def snakeUnderscoreAux : List Char → List Char
  | [] => []
  | c :: cs => (if pyIsUpperAZ c then ['_', c] else [c]) ++ snakeUnderscoreAux cs

/-- `CommonHelper.generate_snaked_field_name` (lib/commonhelper.py lines
66-76): `sub(r"(?<!^)(?=[A-Z])", "_", field_name).lower()` — insert `_`
before every interior uppercase letter, then lower-case everything. -/
def generate_snaked_field_name (field_name : String) : String :=
  match field_name.data with
  | [] => ""
  | c :: cs => pyLower ⟨c :: snakeUnderscoreAux cs⟩

/-- Modelled from the spec: `CommonUtils.convert_to_snake_case`
(utils/common_utils.py is not under src/).  Spec section 4.4: "Snake-case
derivation inserts an underscore before every interior uppercase letter and
lower-cases the whole result"; this is the same derivation as
`generate_snaked_field_name` in lib/commonhelper.py. -/
def convert_to_snake_case (s : String) : String := generate_snaked_field_name s

/-- Modelled from the spec: `custom_types/fetch_type.py` is not under src/.
Spec sections 3 and 9: fetch strategy LAZY, EAGER, or the `NONE` sentinel
meaning "omit"; `value` is the lowercase member value the code upper-cases. -/
inductive FetchType where
  | NONE
  | LAZY
  | EAGER
deriving DecidableEq, Repr

/-- The enum member `.value` string of a `FetchType`. -/
def FetchType.value : FetchType → String
  | .NONE => "none"
  | .LAZY => "lazy"
  | .EAGER => "eager"

/-- Modelled from the spec: `custom_types/cascade_type.py` is not under src/.
Spec section 3: the five cascade flags. -/
inductive CascadeType where
  | PERSIST
  | MERGE
  | REMOVE
  | REFRESH
  | DETACH
deriving DecidableEq, Repr

/-- Modelled from the spec: `custom_types/collection_type.py` is not under
src/.  Spec section 3: collection kind SET, LIST or generic COLLECTION. -/
inductive CollectionType where
  | SET
  | LIST
  | COLLECTION
deriving DecidableEq, Repr

/-- The enum member `.value` string of a `CollectionType`. -/
def CollectionType.value : CollectionType → String
  | .SET => "set"
  | .LIST => "list"
  | .COLLECTION => "collection"

/-- Modelled from the spec: `custom_types/mapping_type.py` is not under src/.
Spec section 3: mapping direction — unidirectional or bidirectional, via
foreign key (join column) or via join table. -/
inductive MappingType where
  | UNIDIRECTIONAL_JOIN_COLUMN
  | BIDIRECTIONAL_JOIN_COLUMN
  | UNIDIRECTIONAL_JOIN_TABLE
  | BIDIRECTIONAL_JOIN_TABLE
deriving DecidableEq, Repr

/-- Modelled from the spec: `custom_types/other.py` is not under src/.  The
per-side extra options referenced by entity_rel_utils.py: mandatory, unique,
orphan removal, equals/hashCode generation. -/
inductive OtherOpt where
  | MANDATORY
  | UNIQUE
  | ORPHAN_REMOVAL
  | EQUALS_HASHCODE
deriving DecidableEq, Repr

/-- The ordered list of set cascade flag names that
`process_cascades_params` accumulates (fixed order PERSIST, MERGE, REMOVE,
REFRESH, DETACH). -/
def selectedCascades (cascade_persist cascade_merge cascade_remove
    cascade_refresh cascade_detach : Bool) : List String :=
  (if cascade_persist then ["PERSIST"] else [])
    ++ (if cascade_merge then ["MERGE"] else [])
    ++ (if cascade_remove then ["REMOVE"] else [])
    ++ (if cascade_refresh then ["REFRESH"] else [])
    ++ (if cascade_detach then ["DETACH"] else [])

/-- `EntityRelationshipUtils.process_cascades_params` (entity_rel_utils.py
lines 38-79): compose the `cascade = ...` annotation parameter from the five
flags (the pending-import side effect is irrelevant to the returned string
and omitted). -/
def process_cascades_params (cascade_persist cascade_merge cascade_remove
    cascade_refresh cascade_detach : Bool) : Option String :=
  let cascades := selectedCascades cascade_persist cascade_merge cascade_remove
    cascade_refresh cascade_detach
  if cascades.length = 5 then
    some "cascade = CascadeType.ALL"
  else if cascades.length = 1 then
    some ("cascade = CascadeType." ++ cascades.headD "")
  else if cascades.length = 0 then
    none
  else
    some ("cascade = \x7b"
      ++ pyJoin ", " (cascades.map (fun c => "CascadeType." ++ c)) ++ "\x7d")

/-- `EntityRelationshipUtils.process_extra_params` (entity_rel_utils.py lines
81-119): join the optional parameters in the fixed order name, mappedBy,
nullable, optional, unique, orphanRemoval, fetch.  Arguments are positional
in that same order (import side effects omitted). -/
def process_extra_params (name : Option String) (mapped_by : Option String)
    (nullable optional unique orphan_removal : Option Bool)
    (fetch_type : Option FetchType) : String :=
  let params : List String :=
    (match name with
      | some n => ["name = \"" ++ n ++ "\""]
      | none => [])
    ++ (match mapped_by with
      | some mb => ["mappedBy = \"" ++ pyLower mb ++ "\""]
      | none => [])
    ++ (match nullable with
      | some b => ["nullable = " ++ pyBoolStr b]
      | none => [])
    ++ (match optional with
      | some b => ["optional = " ++ pyBoolStr b]
      | none => [])
    ++ (match unique with
      | some b => ["unique = " ++ pyBoolStr b]
      | none => [])
    ++ (match orphan_removal with
      | some b => ["orphanRemoval = " ++ pyBoolStr b]
      | none => [])
    ++ (match fetch_type with
      | some ft => ["fetch = FetchType." ++ pyUpper ft.value]
      | none => [])
  pyJoin ", " params

/-- `EntityRelationshipUtils.generate_one_to_many_annotation_body`
(entity_rel_utils.py lines 220-262). -/
def generate_one_to_many_annotation_body (one_field_type : String)
    (cascade_persist cascade_merge cascade_remove cascade_refresh
      cascade_detach orphan_removal : Bool) : String :=
  let body := "@OneToMany"
  let cascade_param := process_cascades_params cascade_persist cascade_merge
    cascade_remove cascade_refresh cascade_detach
  let extra_params := process_extra_params none
    (some (convert_to_snake_case one_field_type)) none none none
    (some orphan_removal) none
  let params := [extra_params]
    ++ (match cascade_param with | some c => [c] | none => [])
  if params.length > 0 then body ++ "(" ++ pyJoin ", " params ++ ")" else body

/-- `EntityRelationshipUtils.generate_many_to_one_annotation_body`
(entity_rel_utils.py lines 264-305). -/
def generate_many_to_one_annotation_body (fetch_type : FetchType)
    (cascade_persist cascade_merge cascade_remove cascade_refresh
      cascade_detach mandatory : Bool) : String :=
  let body := "@ManyToOne"
  let cascade_param := process_cascades_params cascade_persist cascade_merge
    cascade_remove cascade_refresh cascade_detach
  let extra_params := process_extra_params none none none (some (!mandatory))
    none none (if fetch_type = FetchType.NONE then none else some fetch_type)
  let params := [extra_params]
    ++ (match cascade_param with | some c => [c] | none => [])
  if params.length > 0 then body ++ "(" ++ pyJoin ", " params ++ ")" else body

/-- `EntityRelationshipUtils.generate_many_to_many_annotation_body`
(entity_rel_utils.py lines 307-347): note the hard-coded `False` passed in
the REMOVE position of `process_cascades_params`, and that the extra
(mappedBy) parameter is appended only when `mapped_by` is present. -/
def generate_many_to_many_annotation_body
    (cascade_persist cascade_merge cascade_refresh cascade_detach : Bool)
    (mapped_by : Option String) : String :=
  let body := "@ManyToMany"
  let cascade_param := process_cascades_params cascade_persist cascade_merge
    false cascade_refresh cascade_detach
  let params : List String :=
    (match mapped_by with
      | some mb => [process_extra_params none (some mb) none none none none none]
      | none => [])
    ++ (match cascade_param with | some c => [c] | none => [])
  if params.length > 0 then body ++ "(" ++ pyJoin ", " params ++ ")" else body

/-- `EntityRelationshipUtils.generate_join_column_body` (entity_rel_utils.py
lines 433-461). -/
def generate_join_column_body (inverse_side_field_type : String)
    (mandatory unique : Bool) : String :=
  let snaked_field_name := convert_to_snake_case inverse_side_field_type ++ "_id"
  let extra_params := process_extra_params (some snaked_field_name) none
    (some (!mandatory)) none (some unique) none none
  "@JoinColumn" ++ "(" ++ extra_params ++ ")"

/-- `EntityRelationshipUtils.generate_field_body` (entity_rel_utils.py lines
463-499): the field declaration, with collection wrapper and initializer
when the field is a collection. -/
def generate_field_body (field_type : String) (is_collection : Bool)
    (collection_type : Option CollectionType) : String :=
  let collection_name :=
    match is_collection, collection_type with
    | true, some ct => pyTitle ct.value
    | _, _ => ""
  let field_name := generate_field_name field_type is_collection
  let initialization :=
    if collection_type = some CollectionType.SET then "LinkedHashSet<>()"
    else "ArrayList<>()"
  "private " ++ collection_name
    ++ (if is_collection then "<" else "") ++ field_type
    ++ (if is_collection then ">" else "")
    ++ " " ++ field_name
    ++ (if is_collection then " = new " ++ initialization else "")
    ++ ";"

/-- The tree-sitter tree, modelled by the one piece of data the embedded
operations read from it: the full backing text (`tree.root_node.text`,
character list).  Tree-sitter guarantees the root node spans the whole
parsed input, so parsing is text-preserving at this level of abstraction. -/
structure TSTree where
  text : List Char
deriving DecidableEq, Repr

/-- `TreesitterUtils.convert_buffer_to_tree` (treesitter_utils.py lines
41-58) on in-memory bytes: parse, yielding a tree whose root spans the whole
input.  Decoding cannot fail in the model (input is already a string). -/
def convert_buffer_to_tree (buffer : String) : TSTree := ⟨buffer.data⟩

/-- `TreesitterUtils.insert_code_into_position` (treesitter_utils.py lines
91-114): take the root node text, fail if it is falsy (empty), otherwise
splice `code` at `insert_position` by raw slicing and re-parse.  The input
tree is not mutated: a new tree value is returned. -/
def insert_code_into_position (tree : TSTree) (code : String)
    (insert_position : Nat) : Except String TSTree :=
  if tree.text = [] then
    Except.error "Unable to convert root node\x27s text to bytes"
  else
    Except.ok ⟨tree.text.take insert_position ++ code.data
      ++ tree.text.drop insert_position⟩

/-- The on-disk file system: a map from path to file contents. -/
def FSState : Type := String → Option String

/-- Write (or overwrite) one file. -/
def setFile (fs : FSState) (p : String) (content : String) : FSState :=
  fun q => if q = p then some content else fs q

/-- `TreesitterUtils.update_buffer` (treesitter_utils.py lines 116-145), the
persist step: fail if the root node text is falsy, otherwise write the
tree text to the path (the editor reload/save commands have no effect on
the file contents and are omitted). -/
def ts_update_buffer (tree : TSTree) (buffer_path : String)
    (fs : FSState) : Except String FSState :=
  if tree.text = [] then
    Except.error "Root node doesn\x27t have text"
  else
    Except.ok (setFile fs buffer_path ⟨tree.text⟩)

/-- Python truthiness of the optional insert byte: `None` and `0` are both
falsy. -/
def pyTruthyOptNat : Option Nat → Bool
  | none => false
  | some n => n != 0

/-- `EntityRelationshipUtils.update_buffer` (entity_rel_utils.py lines
704-731): merge imports into the tree, locate the field insert byte on the
import-merged tree, raise if it is falsy, then splice the template at it and
persist.  `add_imports_to_file_tree` and `get_entity_field_insert_byte` are
not under src/ (spec sections 4.2 and 4.3, `mergeImports` and
`fieldInsertOffset`), so they are taken as parameters; the call
`insert_code_at_position(template, insert_byte, tree)` is modelled by
`insert_code_into_position` (spec section 4.3, `spliceAndReparse`), the
splice-and-reparse operation present under src/. -/
def update_buffer (add_imports_to_file_tree : TSTree → TSTree)
    (get_entity_field_insert_byte : TSTree → Option Nat)
    (buffer_tree : TSTree) (buffer_path : String) (template : String)
    (fs : FSState) : Except String TSTree × FSState :=
  let updated_buffer_tree := add_imports_to_file_tree buffer_tree
  let insert_byte := get_entity_field_insert_byte updated_buffer_tree
  if pyTruthyOptNat insert_byte = false then
    (Except.error "Unable to get field insert position", fs)
  else
    match insert_code_into_position updated_buffer_tree template
        (insert_byte.getD 0) with
    | Except.error e => (Except.error e, fs)
    | Except.ok t2 =>
      match ts_update_buffer t2 buffer_path fs with
      | Except.error e => (Except.error e, fs)
      | Except.ok fs2 => (Except.ok t2, fs2)

/-- `JavaFileData` (custom_types/java_file_data.py, not under src/): the
fields entity_rel_utils.py reads — path, public class name, package path and
the current tree. -/
structure JavaFileData where
  path : String
  file_name : String
  package_path : String
  tree : TSTree

/-- Modelled from the spec: `CreateManyToOneRelArgs`
(custom_types/create_many_to_one_args.py is not under src/).  Spec section
3, RelationshipConfig: per-side cascade sets, mapping direction, fetch
strategy, collection kind and per-side extra options, as read by
`create_many_to_one_relationship_field`. -/
structure CreateManyToOneRelArgs where
  fetch_type_enum : FetchType
  mapping_type_enum : MappingType
  collection_type_enum : CollectionType
  owning_side_cascades_enum : List CascadeType
  inverse_side_cascades_enum : List CascadeType
  owning_side_other_enum : List OtherOpt
  inverse_side_other_enum : List OtherOpt

/-- `EntityRelationshipUtils.generate_many_to_one_template`
(entity_rel_utils.py lines 536-582): annotation, join column and field body
of the owning (many) side. -/
def generate_many_to_one_template (inverse_side_file_data : JavaFileData)
    (fetch_type : FetchType)
    (cascade_persist cascade_merge cascade_remove cascade_refresh
      cascade_detach mandatory unique : Bool) : String :=
  let many_to_one_body := generate_many_to_one_annotation_body fetch_type
    cascade_persist cascade_merge cascade_remove cascade_refresh
    cascade_detach mandatory
  let join_column_body := generate_join_column_body
    inverse_side_file_data.file_name mandatory unique
  let field_body := generate_field_body inverse_side_file_data.file_name
    false none
  "\n\t" ++ many_to_one_body ++ "\n\t" ++ join_column_body ++ "\n\t"
    ++ field_body ++ "\n"

/-- `EntityRelationshipUtils.generate_one_to_many_template`
(entity_rel_utils.py lines 501-534): annotation and collection field body of
the inverse (one) side. -/
def generate_one_to_many_template (owning_side_file_data : JavaFileData)
    (inverse_side_file_data : JavaFileData)
    (cascade_persist cascade_merge cascade_remove cascade_refresh
      cascade_detach orphan_removal : Bool)
    (collection_type : CollectionType) : String :=
  let one_to_many_body := generate_one_to_many_annotation_body
    inverse_side_file_data.file_name cascade_persist cascade_merge
    cascade_remove cascade_refresh cascade_detach orphan_removal
  let field_body := generate_field_body owning_side_file_data.file_name true
    (some collection_type)
  "\n\t" ++ one_to_many_body ++ "\n\t" ++ field_body ++ "\n"

/-- The owning-side field template computed by
`create_many_to_one_relationship_field` (entity_rel_utils.py lines 740-761):
`generate_many_to_one_template` applied to the inverse-side file data and
the flags decoded from the args enums (`True if X in ... else False`). -/
def manyToOneTemplateOfArgs (inverse_side_file_data : JavaFileData)
    (args : CreateManyToOneRelArgs) : String :=
  generate_many_to_one_template inverse_side_file_data args.fetch_type_enum
    (args.owning_side_cascades_enum.contains CascadeType.PERSIST)
    (args.owning_side_cascades_enum.contains CascadeType.MERGE)
    (args.owning_side_cascades_enum.contains CascadeType.REMOVE)
    (args.owning_side_cascades_enum.contains CascadeType.REFRESH)
    (args.owning_side_cascades_enum.contains CascadeType.DETACH)
    (args.owning_side_other_enum.contains OtherOpt.MANDATORY)
    (args.owning_side_other_enum.contains OtherOpt.UNIQUE)

/-- The inverse-side field template computed by
`create_many_to_one_relationship_field` (entity_rel_utils.py lines 769-791):
`generate_one_to_many_template` applied to both file data records and the
flags decoded from the args enums. -/
def oneToManyTemplateOfArgs
    (owning_side_file_data inverse_side_file_data : JavaFileData)
    (args : CreateManyToOneRelArgs) : String :=
  generate_one_to_many_template owning_side_file_data inverse_side_file_data
    (args.inverse_side_cascades_enum.contains CascadeType.PERSIST)
    (args.inverse_side_cascades_enum.contains CascadeType.MERGE)
    (args.inverse_side_cascades_enum.contains CascadeType.REMOVE)
    (args.inverse_side_cascades_enum.contains CascadeType.REFRESH)
    (args.inverse_side_cascades_enum.contains CascadeType.DETACH)
    (args.inverse_side_other_enum.contains OtherOpt.ORPHAN_REMOVAL)
    args.collection_type_enum

/-- `EntityRelationshipUtils.create_many_to_one_relationship_field`
(entity_rel_utils.py lines 733-797): update the owning-side file with the
many-to-one template, then, only when the mapping type is
BIDIRECTIONAL_JOIN_COLUMN, update the inverse-side file with the one-to-many
template.  A raised exception propagates (writes already performed stay). -/
def create_many_to_one_relationship_field
    (add_imports_to_file_tree : TSTree → TSTree)
    (get_entity_field_insert_byte : TSTree → Option Nat)
    (owning_side_file_data inverse_side_file_data : JavaFileData)
    (args : CreateManyToOneRelArgs) (fs : FSState) :
    Except String Unit × FSState :=
  match update_buffer add_imports_to_file_tree get_entity_field_insert_byte
      owning_side_file_data.tree owning_side_file_data.path
      (manyToOneTemplateOfArgs inverse_side_file_data args) fs with
  | (Except.error e, fs1) => (Except.error e, fs1)
  | (Except.ok _, fs1) =>
    if args.mapping_type_enum = MappingType.BIDIRECTIONAL_JOIN_COLUMN then
      match update_buffer add_imports_to_file_tree
          get_entity_field_insert_byte inverse_side_file_data.tree
          inverse_side_file_data.path
          (oneToManyTemplateOfArgs owning_side_file_data
            inverse_side_file_data args) fs1 with
      | (Except.error e, fs2) => (Except.error e, fs2)
      | (Except.ok _, fs2) => (Except.ok (), fs2)
    else
      (Except.ok (), fs1)

/-- A `class_declaration` node as read by the semantic locator: the text of
its `modifiers` child if present, the class name, and the names of the
`method_declaration` children of its `body` (other members are not read by
the embedded operations). -/
structure JClassDecl where
  modifiersText : Option String
  name : String
  methodNames : List String

/-- A parsed Java file as read by the semantic locator: the
`class_declaration` captures of the query, in document order. -/
structure JTree where
  classDecls : List JClassDecl

/-- Python `text.split(sep)` for a single-character separator, on character
lists: splitting the empty text yields one empty part. -/
def pySplitOn (sep : Char) : List Char → List (List Char)
  | [] => [[]]
  | c :: cs =>
    let r := pySplitOn sep cs
    if c = sep then [] :: r
    else (c :: r.headD []) :: r.tail

/-- Whether a class declaration qualifies as the public class: it has a
modifiers child with truthy (non-empty) text whose last line
(`split("\n")[-1]`) is exactly `public` (treesitter_utils.py lines
150-158). -/
def classIsPublic (cd : JClassDecl) : Bool :=
  match cd.modifiersText with
  | none => false
  | some txt =>
    if txt = "" then false
    else decide ((pySplitOn '\n' txt.data).getLast? = some "public".data)

/-- `TreesitterUtils.get_buffer_public_class_node_from_query_results`
(treesitter_utils.py lines 147-166): scan all class declarations and keep
the last one whose modifiers end with `public`. -/
def get_buffer_public_class (t : JTree) : Option JClassDecl :=
  t.classDecls.foldl (fun acc cd => if classIsPublic cd then some cd else acc) none

/-- `TreesitterUtils.buffer_public_class_has_method` (treesitter_utils.py
lines 219-243): whether the public class body directly contains a
`method_declaration` with the given name. -/
def buffer_public_class_has_method (t : JTree) (method_name : String) : Bool :=
  match get_buffer_public_class t with
  | none => false
  | some cd => cd.methodNames.contains method_name

/-- The `equals` method text of `generate_equals_hashcode_methods`
(entity_rel_utils.py lines 174-191), with the `field_type` and snaked field
name interpolations. -/
def equalsMethodText (field_type snaked_field_name : String) : String :=
  "\n        @Override\n        public final boolean equals(Object o) \x7b\n            if (this == o) return true;\n            if (o == null) return false;\n            Class<?> oEffectiveClass =\n                    o instanceof HibernateProxy\n                            ? ((HibernateProxy) o).getHibernateLazyInitializer().getPersistentClass()\n                            : o.getClass();\n            Class<?> thisEffectiveClass =\n                    this instanceof HibernateProxy\n                            ? ((HibernateProxy) this).getHibernateLazyInitializer().getPersistentClass()\n                            : this.getClass();\n            if (thisEffectiveClass != oEffectiveClass) return false;\n            "
    ++ field_type ++ " " ++ snaked_field_name ++ " = (" ++ field_type
    ++ ") o;\n            return getId() != null && Objects.equals(getId(), "
    ++ snaked_field_name ++ ".getId());\n        \x7d\n        "

/-- The `hashCode` method text of `generate_equals_hashcode_methods`
(entity_rel_utils.py lines 192-202). -/
def hashCodeMethodText : String :=
  "\n        @Override\n        public final int hashCode() \x7b\n            return this instanceof HibernateProxy\n                    ? ((HibernateProxy) this)\n                            .getHibernateLazyInitializer()\n                            .getPersistentClass()\n                            .hashCode()\n                    : getClass().hashCode();\n        \x7d\n        "

/-- `EntityRelationshipUtils.generate_equals_hashcode_methods`
(entity_rel_utils.py lines 158-218): emit the equals-plus-hashCode text only
when the public class has neither an `equals` nor a `hashCode` method;
otherwise return `None`. -/
def generate_equals_hashcode_methods (field_type : String)
    (file_tree : JTree) : Option String :=
  let buffer_has_equals_method :=
    buffer_public_class_has_method file_tree "equals"
  let buffer_has_hashcode_method :=
    buffer_public_class_has_method file_tree "hashCode"
  let snaked_field_name := convert_to_snake_case field_type
  if !buffer_has_equals_method && !buffer_has_hashcode_method then
    some (equalsMethodText field_type snaked_field_name ++ "\n"
      ++ hashCodeMethodText)
  else
    none

/-! ## Shared helper lemmas -/

/-- On any path other than the one being updated, `update_buffer` leaves the
file system untouched, in every branch (failure or success). -/
lemma ubuf_other_path (ai : TSTree → TSTree) (gib : TSTree → Option Nat)
    (t : TSTree) (p tmpl : String) (fs : FSState) (q : String) (hq : q ≠ p) :
    (update_buffer ai gib t p tmpl fs).2 q = fs q := by
  unfold update_buffer
  dsimp only
  split
  · rfl
  · split
    · rfl
    · rename_i t2 _
      split
      · rfl
      · rename_i fs2 heq
        unfold ts_update_buffer at heq
        split at heq
        · exact Except.noConfusion heq
        · injection heq with heq2
          rw [← heq2]
          simp [setFile, hq]

/-- When `update_buffer` succeeds, the updated path holds exactly the text of
the returned tree, and that text contains the spliced template. -/
lemma ubuf_ok_write (ai : TSTree → TSTree) (gib : TSTree → Option Nat)
    (t : TSTree) (p tmpl : String) (fs : FSState) (t' : TSTree) (fs' : FSState)
    (h : update_buffer ai gib t p tmpl fs = (Except.ok t', fs')) :
    fs' p = some (String.mk t'.text) ∧ tmpl.data <:+: t'.text := by
  unfold update_buffer at h
  dsimp only at h
  split at h
  · simp at h
  · split at h
    · simp at h
    · rename_i t2 hins
      split at h
      · simp at h
      · rename_i fs2 heq
        unfold ts_update_buffer at heq
        split at heq
        · exact Except.noConfusion heq
        · injection heq with heq2
          injection h with h1 h2
          injection h1 with h1
          subst h1
          subst h2
          rw [← heq2]
          refine ⟨by simp [setFile], ?_⟩
          unfold insert_code_into_position at hins
          split at hins
          · exact Except.noConfusion hins
          · injection hins with hins2
            rw [← hins2]
            exact ⟨_, _, rfl⟩

/-- The ASCII lower-casing map never outputs an uppercase `V`. -/
lemma pyLowerChar_ne_V (c : Char) : pyLowerChar c ≠ 'V' := by
  unfold pyLowerChar
  split
  · rename_i h
    have hc : c ∈ upperAZ := by simpa [pyIsUpperAZ] using h
    fin_cases hc <;> decide
  · rename_i h
    intro he
    exact h (by rw [he]; decide)

/-- The ASCII lower-casing map never outputs an uppercase `L`. -/
lemma pyLowerChar_ne_L (c : Char) : pyLowerChar c ≠ 'L' := by
  unfold pyLowerChar
  split
  · rename_i h
    have hc : c ∈ upperAZ := by simpa [pyIsUpperAZ] using h
    fin_cases hc <;> decide
  · rename_i h
    intro he
    exact h (by rw [he]; decide)

/-- With the REMOVE position hard-coded to `false`, no cascade parameter the
composition function can produce contains the character `V` or `L`. -/
lemma cascades_no_V_L : ∀ p m rf d : Bool,
    'V' ∉ ((process_cascades_params p m false rf d).getD "").data
    ∧ 'L' ∉ ((process_cascades_params p m false rf d).getD "").data := by
  decide

/-- Character-support lemma for the many-to-many annotation body: a character
that the lower-casing map never outputs, that does not occur in any fixed
fragment of the body, and that occurs in no reachable cascade parameter,
does not occur in the body at all, for any flags and any `mapped_by`. -/
lemma m2m_body_char_free (ch : Char)
    (hmap : ∀ c, pyLowerChar c ≠ ch)
    (hcas : ∀ p m rf d : Bool,
      ch ∉ ((process_cascades_params p m false rf d).getD "").data)
    (r1 : ch ∉ "@ManyToMany".data) (r2 : ch ∉ "(".data)
    (r3 : ch ∉ ")".data) (r4 : ch ∉ ", ".data)
    (r5 : ch ∉ "mappedBy = \"".data) (r6 : ch ∉ "\"".data)
    (p m rf d : Bool) (mb : Option String) :
    ch ∉ (generate_many_to_many_annotation_body p m rf d mb).data := by
  have hmapmem : ∀ s : String, ch ∉ (pyLower s).data := by
    intro s hmem
    rcases List.mem_map.mp (by simpa [pyLower] using hmem) with ⟨c0, -, hc0⟩
    exact hmap c0 hc0
  cases mb with
  | none =>
    cases hc : process_cascades_params p m false rf d with
    | none =>
      have hbody : generate_many_to_many_annotation_body p m rf d none
          = "@ManyToMany" := by
        simp [generate_many_to_many_annotation_body, hc]
      rw [hbody]
      exact r1
    | some c =>
      have hcc : ch ∉ c.data := by
        have := hcas p m rf d
        rw [hc] at this
        simpa using this
      have hbody : generate_many_to_many_annotation_body p m rf d none
          = "@ManyToMany" ++ "(" ++ c ++ ")" := by
        simp [generate_many_to_many_annotation_body, hc, pyJoin]
      rw [hbody]
      intro hmem
      simp only [String.data_append, List.mem_append] at hmem
      casesm* _ ∨ _
      all_goals first
        | exact r1 ‹_› | exact r2 ‹_› | exact r3 ‹_› | exact r4 ‹_›
        | exact r5 ‹_› | exact r6 ‹_› | exact hcc ‹_›
  | some s =>
    cases hc : process_cascades_params p m false rf d with
    | none =>
      have hbody : generate_many_to_many_annotation_body p m rf d (some s)
          = "@ManyToMany" ++ "("
            ++ ("mappedBy = \"" ++ pyLower s ++ "\"") ++ ")" := by
        simp [generate_many_to_many_annotation_body, hc, pyJoin,
          process_extra_params]
      rw [hbody]
      intro hmem
      simp only [String.data_append, List.mem_append] at hmem
      casesm* _ ∨ _
      all_goals first
        | exact r1 ‹_› | exact r2 ‹_› | exact r3 ‹_› | exact r4 ‹_›
        | exact r5 ‹_› | exact r6 ‹_›
        | exact hmapmem _ ‹_›
    | some c =>
      have hcc : ch ∉ c.data := by
        have := hcas p m rf d
        rw [hc] at this
        simpa using this
      have hbody : generate_many_to_many_annotation_body p m rf d (some s)
          = "@ManyToMany" ++ "("
            ++ ("mappedBy = \"" ++ pyLower s ++ "\"" ++ ", " ++ c) ++ ")" := by
        simp [generate_many_to_many_annotation_body, hc, pyJoin,
          process_extra_params]
      rw [hbody]
      intro hmem
      simp only [String.data_append, List.mem_append] at hmem
      casesm* _ ∨ _
      all_goals first
        | exact r1 ‹_› | exact r2 ‹_› | exact r3 ‹_› | exact r4 ‹_›
        | exact r5 ‹_› | exact r6 ‹_› | exact hcc ‹_›
        | exact hmapmem _ ‹_›

/-! ## Concrete fixtures -/

/-- The owning-side file of the end-to-end scenario: `Order.java`, public
class `Order`, package `com.example.orders`. -/
def orderFileData : JavaFileData :=
  ⟨"/project/src/main/java/com/example/orders/Order.java", "Order",
    "com.example.orders",
    convert_buffer_to_tree
      "package com.example.orders;\n\npublic class Order \x7b\n\x7d\n"⟩

/-- The inverse-side file of the end-to-end scenario: `Customer.java`, public
class `Customer`, package `com.example.customers`. -/
def customerFileData : JavaFileData :=
  ⟨"/project/src/main/java/com/example/customers/Customer.java", "Customer",
    "com.example.customers",
    convert_buffer_to_tree
      "package com.example.customers;\n\npublic class Customer \x7b\n\x7d\n"⟩

/-- An empty on-disk state, used by the witnesses. -/
def emptyFS : FSState := fun _ => none

/-! ## Claims -/

set_option maxRecDepth 40000 in
/-- C1 (counterexample): in the end-to-end many-to-one scenario the claim
says the inverse fragment contains `@OneToMany(mappedBy = "order")`; the
generated inverse fragment does not contain that string — the code builds
`mappedBy` from the inverse class name (`Customer`), yielding
`mappedBy = "customer"`, and always emits `orphanRemoval = false`. -/
theorem spec_C1_counterexample :
    ¬ ("@OneToMany(mappedBy = \"order\")".data <:+:
        (generate_one_to_many_template orderFileData customerFileData
          false false false false false false CollectionType.LIST).data) := by
  decide

/-- C1 (amended): in the end-to-end scenario (owning `Order`, inverse
`Customer`, fetch=EAGER, owning cascades PERSIST+MERGE, mandatory, not
unique, inverse side with no cascades and no orphan removal, collection
LIST), the owning fragment is exactly the `@ManyToOne`/`@JoinColumn`/field
block of the claim, and the inverse fragment is exactly
`@OneToMany(mappedBy = "customer", orphanRemoval = false)` with
`private List<Order> orders = new ArrayList<>();`. -/
theorem spec_C1_end_to_end :
    generate_many_to_one_template customerFileData FetchType.EAGER
        true true false false false true false
      = "\n\t@ManyToOne(optional = false, fetch = FetchType.EAGER, cascade = \x7bCascadeType.PERSIST, CascadeType.MERGE\x7d)\n\t@JoinColumn(name = \"customer_id\", nullable = false, unique = false)\n\tprivate Customer customer;\n"
    ∧ generate_one_to_many_template orderFileData customerFileData
        false false false false false false CollectionType.LIST
      = "\n\t@OneToMany(mappedBy = \"customer\", orphanRemoval = false)\n\tprivate List<Order> orders = new ArrayList<>();\n" :=
  ⟨rfl, rfl⟩

/-- C2: for every subset of the five cascade flags, the composition yields
`cascade = CascadeType.ALL` iff all five are set, no parameter iff none is
set, the single unparenthesized flag iff exactly one is set, and otherwise
the brace-delimited comma-joined list of exactly the set flags in the fixed
order PERSIST, MERGE, REMOVE, REFRESH, DETACH. -/
theorem spec_C2_cascade_composition :
    ∀ p m r rf d : Bool,
      (process_cascades_params p m r rf d = some "cascade = CascadeType.ALL" ↔
        (selectedCascades p m r rf d).length = 5)
      ∧ (process_cascades_params p m r rf d = none ↔
        (selectedCascades p m r rf d).length = 0)
      ∧ ((selectedCascades p m r rf d).length = 1 →
        process_cascades_params p m r rf d =
          some ("cascade = CascadeType." ++ (selectedCascades p m r rf d).headD ""))
      ∧ (1 < (selectedCascades p m r rf d).length ∧
          (selectedCascades p m r rf d).length < 5 →
        process_cascades_params p m r rf d =
          some ("cascade = \x7b"
            ++ pyJoin ", " ((selectedCascades p m r rf d).map
              (fun c => "CascadeType." ++ c)) ++ "\x7d")) := by
  decide

/-- C2 witness: the singleton subset containing only REMOVE. -/
theorem spec_C2_cascade_composition_witness :
    (selectedCascades false false true false false).length = 1
    ∧ process_cascades_params false false true false false =
        some ("cascade = CascadeType."
          ++ (selectedCascades false false true false false).headD "") :=
  ⟨by decide,
    (spec_C2_cascade_composition false false true false false).2.2.1 (by decide)⟩

/-- C3 (counterexample): the claim quantifies over every source text `T`,
but for the empty text the splice operation raises (`if not buffer_bytes`
treats the empty root-node text as missing) instead of yielding a tree whose
text is `"" + F + ""`. -/
theorem spec_C3_counterexample :
    insert_code_into_position (convert_buffer_to_tree "") "x" 0
        = Except.error "Unable to convert root node\x27s text to bytes"
    ∧ insert_code_into_position (convert_buffer_to_tree "") "x" 0
        ≠ Except.ok (convert_buffer_to_tree ("" ++ "x" ++ "")) := by
  constructor
  · rfl
  · intro hco
    rw [show insert_code_into_position (convert_buffer_to_tree "") "x" 0
        = Except.error "Unable to convert root node\x27s text to bytes"
      from rfl] at hco
    exact Except.noConfusion hco

/-- C3 (amended): for every nonempty source text `T`, fragment `F` and
offset `O ≤ length T`, splicing yields a tree whose full text is exactly
`T[:O] + F + T[O:]`, and re-parsing that text yields the same text (stable
fixed point).  The input tree is untouched: the operation is a pure function
returning a new tree value. -/
theorem spec_C3_splice_roundtrip (T F : String) (O : Nat)
    (hT : T ≠ "") (hO : O ≤ T.length) :
    insert_code_into_position (convert_buffer_to_tree T) F O
      = Except.ok ⟨T.data.take O ++ F.data ++ T.data.drop O⟩
    ∧ (convert_buffer_to_tree
        (String.mk (T.data.take O ++ F.data ++ T.data.drop O))).text
      = T.data.take O ++ F.data ++ T.data.drop O := by
  have _hO := hO
  have hne : T.data ≠ [] := fun hnil => hT (String.ext (hnil.trans rfl))
  constructor
  · simp [insert_code_into_position, convert_buffer_to_tree, hne]
  · rfl

/-- C3 witness: splicing `"x"` at offset 1 of `"ab"`. -/
theorem spec_C3_splice_roundtrip_witness :
    ("ab" : String) ≠ "" ∧ (1 : Nat) ≤ "ab".length
    ∧ (insert_code_into_position (convert_buffer_to_tree "ab") "x" 1
        = Except.ok ⟨"ab".data.take 1 ++ "x".data ++ "ab".data.drop 1⟩
      ∧ (convert_buffer_to_tree
          (String.mk ("ab".data.take 1 ++ "x".data ++ "ab".data.drop 1))).text
        = "ab".data.take 1 ++ "x".data ++ "ab".data.drop 1) :=
  ⟨by decide, by decide, spec_C3_splice_roundtrip "ab" "x" 1 (by decide) (by decide)⟩

/-- C4: in the single-file update, if the field insert offset cannot be
found on the import-merged tree the whole call fails with nothing written —
the returned state is exactly the input state (and the in-memory tree, a
pure value, is untouched); and when a valid (non-zero) offset is found, the
splice is applied to the import-merged tree and only then is the result
written to the file's path. -/
theorem spec_C4_update_failfast (ai : TSTree → TSTree)
    (gib : TSTree → Option Nat) (t : TSTree) (p tmpl : String) (fs : FSState) :
    (gib (ai t) = none →
      update_buffer ai gib t p tmpl fs
        = (Except.error "Unable to get field insert position", fs))
    ∧ (∀ n, gib (ai t) = some n → n ≠ 0 → (ai t).text ≠ [] →
        update_buffer ai gib t p tmpl fs
          = (Except.ok (TSTree.mk ((ai t).text.take n ++ tmpl.data
                ++ (ai t).text.drop n)),
             setFile fs p (String.mk ((ai t).text.take n ++ tmpl.data
                ++ (ai t).text.drop n)))) := by
  constructor
  · intro h
    simp [update_buffer, h, pyTruthyOptNat]
  · intro n hn hnz hne
    have hsplice : (ai t).text.take n ++ tmpl.data ++ (ai t).text.drop n ≠ [] := by
      intro hh
      rcases List.append_eq_nil.mp hh with ⟨hh1, hh3⟩
      rcases List.append_eq_nil.mp hh1 with ⟨htake, _⟩
      apply hne
      have := List.take_append_drop n (ai t).text
      rw [htake, hh3] at this
      simpa using this.symm
    simp [update_buffer, hn, pyTruthyOptNat, hnz, insert_code_into_position,
      hne, ts_update_buffer, hsplice]

/-- C4 witness: a locator that finds no offset makes the update fail with
the untouched state, and a locator that finds offset 1 splices and writes. -/
theorem spec_C4_update_failfast_witness :
    update_buffer id (fun _ => none) (convert_buffer_to_tree "class A \x7b\x7d")
        "A.java" "x" emptyFS
      = (Except.error "Unable to get field insert position", emptyFS)
    ∧ update_buffer id (fun _ => some 1) (convert_buffer_to_tree "class A \x7b\x7d")
        "A.java" "x" emptyFS
      = (Except.ok (TSTree.mk
            ((id (convert_buffer_to_tree "class A \x7b\x7d")).text.take 1
              ++ "x".data
              ++ (id (convert_buffer_to_tree "class A \x7b\x7d")).text.drop 1)),
         setFile emptyFS "A.java" (String.mk
            ((id (convert_buffer_to_tree "class A \x7b\x7d")).text.take 1
              ++ "x".data
              ++ (id (convert_buffer_to_tree "class A \x7b\x7d")).text.drop 1))) :=
  ⟨(spec_C4_update_failfast id (fun _ => none) (convert_buffer_to_tree "class A \x7b\x7d")
      "A.java" "x" emptyFS).1 rfl,
   (spec_C4_update_failfast id (fun _ => some 1) (convert_buffer_to_tree "class A \x7b\x7d")
      "A.java" "x" emptyFS).2 1 rfl (by decide) (by decide)⟩

/-- C5: many-to-one creation updates the owning-side file with the
many-to-one field fragment whenever that update succeeds; the inverse-side
file is additionally updated with the one-to-many collection fragment only
when the mapping type is BIDIRECTIONAL_JOIN_COLUMN, and under any other
mapping type no path other than the owning file's is touched at all. -/
theorem spec_C5_side_targeting (ai : TSTree → TSTree)
    (gib : TSTree → Option Nat) (owning inverse : JavaFileData)
    (args : CreateManyToOneRelArgs) (fs : FSState)
    (hp : owning.path ≠ inverse.path) :
    (args.mapping_type_enum ≠ MappingType.BIDIRECTIONAL_JOIN_COLUMN →
      ∀ q, q ≠ owning.path →
        (create_many_to_one_relationship_field ai gib owning inverse args fs).2 q
          = fs q)
    ∧ (∀ t1 fs1,
        update_buffer ai gib owning.tree owning.path
            (manyToOneTemplateOfArgs inverse args) fs = (Except.ok t1, fs1) →
        (create_many_to_one_relationship_field ai gib owning inverse args fs).2
            owning.path = some (String.mk t1.text)
          ∧ (manyToOneTemplateOfArgs inverse args).data <:+: t1.text)
    ∧ (args.mapping_type_enum = MappingType.BIDIRECTIONAL_JOIN_COLUMN →
        (create_many_to_one_relationship_field ai gib owning inverse args fs).1
          = Except.ok () →
        ∃ s, (create_many_to_one_relationship_field ai gib owning inverse args
              fs).2 inverse.path = some s
          ∧ (oneToManyTemplateOfArgs owning inverse args).data <:+: s.data) := by
  refine ⟨?_, ?_, ?_⟩
  · intro hmap q hq
    unfold create_many_to_one_relationship_field
    split
    · rename_i e fs1 h1
      have := ubuf_other_path ai gib owning.tree owning.path
        (manyToOneTemplateOfArgs inverse args) fs q hq
      rw [h1] at this
      exact this
    · rename_i r fs1 h1
      rw [if_neg hmap]
      have := ubuf_other_path ai gib owning.tree owning.path
        (manyToOneTemplateOfArgs inverse args) fs q hq
      rw [h1] at this
      exact this
  · intro t1 fs1 h1
    have hw := ubuf_ok_write ai gib owning.tree owning.path
      (manyToOneTemplateOfArgs inverse args) fs t1 fs1 h1
    unfold create_many_to_one_relationship_field
    rw [h1]
    dsimp only
    by_cases hmap : args.mapping_type_enum = MappingType.BIDIRECTIONAL_JOIN_COLUMN
    · rw [if_pos hmap]
      have hother := ubuf_other_path ai gib inverse.tree inverse.path
        (oneToManyTemplateOfArgs owning inverse args) fs1 owning.path hp
      split
      · rename_i e fs2 h2
        rw [h2] at hother
        exact ⟨hother.trans hw.1, hw.2⟩
      · rename_i r fs2 h2
        rw [h2] at hother
        exact ⟨hother.trans hw.1, hw.2⟩
    · rw [if_neg hmap]
      exact hw
  · intro hmap hok
    unfold create_many_to_one_relationship_field at hok ⊢
    split at hok
    · simp at hok
    · rename_i r fs1 h1
      rw [if_pos hmap] at hok ⊢
      split at hok
      · simp at hok
      · rename_i r2 fs2 h2
        have hw := ubuf_ok_write ai gib inverse.tree inverse.path
          (oneToManyTemplateOfArgs owning inverse args) fs1 r2 fs2 h2
        exact ⟨String.mk r2.text, hw.1, hw.2⟩

/-- C5 witness: with a unidirectional-join-column configuration, the inverse
file's path is untouched by the call. -/
theorem spec_C5_side_targeting_witness :
    orderFileData.path ≠ customerFileData.path
    ∧ (create_many_to_one_relationship_field id (fun _ => some 1)
        orderFileData customerFileData
        ⟨FetchType.NONE, MappingType.UNIDIRECTIONAL_JOIN_COLUMN,
          CollectionType.LIST, [], [], [], []⟩ emptyFS).2
        customerFileData.path
      = emptyFS customerFileData.path :=
  ⟨by decide,
    (spec_C5_side_targeting id (fun _ => some 1) orderFileData customerFileData
      ⟨FetchType.NONE, MappingType.UNIDIRECTIONAL_JOIN_COLUMN,
        CollectionType.LIST, [], [], [], []⟩ emptyFS (by decide)).1
      (by decide) customerFileData.path (by decide)⟩

/-- C6: the identity-method generator emits the equals-plus-hashCode text
iff the public class body directly contains neither an `equals` nor a
`hashCode` method, and emits nothing iff at least one of them is present —
so a second invocation on a file whose class already gained both methods
emits neither. -/
theorem spec_C6_identity_guard (t : JTree) (ft : String) :
    ((generate_equals_hashcode_methods ft t).isSome
      = (!(buffer_public_class_has_method t "equals")
          && !(buffer_public_class_has_method t "hashCode")))
    ∧ (generate_equals_hashcode_methods ft t = none ↔
        (buffer_public_class_has_method t "equals" = true
          ∨ buffer_public_class_has_method t "hashCode" = true)) := by
  cases he : buffer_public_class_has_method t "equals" <;>
    cases hh : buffer_public_class_has_method t "hashCode" <;>
      simp [generate_equals_hashcode_methods, he, hh]

/-- C6 witness: on a public class that already has an `equals` method, the
generator emits nothing. -/
theorem spec_C6_identity_guard_witness :
    generate_equals_hashcode_methods "Customer"
      (JTree.mk [JClassDecl.mk (some "public") "Customer" ["equals"]]) = none :=
  (spec_C6_identity_guard
    (JTree.mk [JClassDecl.mk (some "public") "Customer" ["equals"]])
    "Customer").2.mpr (Or.inl (by decide))

/-- C7 (counterexample): the claim says a word ending in `fe` is pluralized
by the `f`-ending branch, dropping only the final character; but a word
ending in `fe` does not end in `f` (its last character is `e`), so the code
reaches the dedicated `fe` branch and drops two characters:
`pluralize "knife" = "knives"`, not `"knif" ++ "ves"`. -/
theorem spec_C7_counterexample :
    pluralize "knife" = "knives"
    ∧ pluralize "knife" ≠ pyDropLast "knife" 1 ++ "ves" := by
  constructor
  · decide
  · decide

/-- C7 (amended): the bare-`f` test is checked before the `fe` test, but it
only matches words whose final character is `f`; every word ending in `fe`
(which matches none of the earlier `s/sh/ch/x/z`, `y`, `f` rules) is handled
by the `fe` branch, dropping the final two characters and appending `ves`. -/
theorem spec_C7_fe_suffix (w : String) (h : pyEndsWith w "fe" = true) :
    pluralize w = pyDropLast w 2 ++ "ves" := by
  have hfe : "fe".data <:+ w.data := of_decide_eq_true h
  have mk_false : ∀ p : String, ¬ (p.data <:+ "fe".data) →
      ¬ ("fe".data <:+ p.data) → pyEndsWith w p = false := by
    intro p h1 h2
    apply decide_eq_false
    intro hs
    rcases List.suffix_or_suffix_of_suffix hs hfe with h' | h'
    · exact h1 h'
    · exact h2 h'
  have e1 : pyEndsWith w "s" = false := mk_false _ (by decide) (by decide)
  have e2 : pyEndsWith w "sh" = false := mk_false _ (by decide) (by decide)
  have e3 : pyEndsWith w "ch" = false := mk_false _ (by decide) (by decide)
  have e4 : pyEndsWith w "x" = false := mk_false _ (by decide) (by decide)
  have e5 : pyEndsWith w "z" = false := mk_false _ (by decide) (by decide)
  have e6 : pyEndsWith w "y" = false := mk_false _ (by decide) (by decide)
  have e7 : pyEndsWith w "f" = false := mk_false _ (by decide) (by decide)
  simp [pluralize, e1, e2, e3, e4, e5, e6, e7, h]

/-- C7 witness: `knife` ends in `fe` and pluralizes through the `fe`
branch. -/
theorem spec_C7_fe_suffix_witness :
    pyEndsWith "knife" "fe" = true
    ∧ pluralize "knife" = pyDropLast "knife" 2 ++ "ves" :=
  ⟨by decide, spec_C7_fe_suffix "knife" (by decide)⟩

/-- C8: snake-case derivation maps `UserProfile` to `user_profile` and `ID`
to `i_d`, and in general inserts an underscore before every interior ASCII
uppercase letter (consecutive ones included) and lower-cases the whole
result. -/
theorem spec_C8_snake_case :
    generate_snaked_field_name "UserProfile" = "user_profile"
    ∧ generate_snaked_field_name "ID" = "i_d"
    ∧ ∀ (c : Char) (cs : List Char),
        (generate_snaked_field_name ⟨c :: cs⟩).data
          = (c :: cs.flatMap (fun d => if pyIsUpperAZ d then ['_', d] else [d])).map
              pyLowerChar := by
  refine ⟨by decide, by decide, ?_⟩
  intro c cs
  have haux : ∀ l : List Char, snakeUnderscoreAux l
      = l.flatMap (fun d => if pyIsUpperAZ d then ['_', d] else [d]) := by
    intro l
    induction l with
    | nil => rfl
    | cons d ds ih => simp [snakeUnderscoreAux, ih]
  simp [generate_snaked_field_name, pyLower, haux]

/-- C8 witness: the general underscore-insertion shape evaluated on `ID`. -/
theorem spec_C8_snake_case_witness :
    (generate_snaked_field_name ⟨'I' :: ['D']⟩).data
      = ('I' :: ['D'].flatMap (fun d => if pyIsUpperAZ d then ['_', d] else [d])).map
          pyLowerChar :=
  spec_C8_snake_case.2.2 'I' ['D']

/-- C9: for every flag combination and every `mapped_by`, the generated
`@ManyToMany` annotation body never contains `CascadeType.REMOVE` and never
contains the sentinel `CascadeType.ALL`: the builder passes a hard-coded
`false` in the REMOVE position, so at most four flags reach the cascade
composition. -/
theorem spec_C9_many_to_many_cascades (p m rf d : Bool) (mb : Option String) :
    ¬ ("CascadeType.REMOVE".data <:+:
        (generate_many_to_many_annotation_body p m rf d mb).data)
    ∧ ¬ ("CascadeType.ALL".data <:+:
        (generate_many_to_many_annotation_body p m rf d mb).data) := by
  constructor
  · intro h
    exact m2m_body_char_free 'V' pyLowerChar_ne_V
      (fun p m rf d => (cascades_no_V_L p m rf d).1)
      (by decide) (by decide) (by decide) (by decide) (by decide) (by decide)
      p m rf d mb (h.subset (by decide))
  · intro h
    exact m2m_body_char_free 'L' pyLowerChar_ne_L
      (fun p m rf d => (cascades_no_V_L p m rf d).2)
      (by decide) (by decide) (by decide) (by decide) (by decide) (by decide)
      p m rf d mb (h.subset (by decide))

/-- C9 witness: all four accepted flags set, on the mappedBy side. -/
theorem spec_C9_many_to_many_cascades_witness :
    ¬ ("CascadeType.REMOVE".data <:+:
        (generate_many_to_many_annotation_body true true true true
          (some "Order")).data)
    ∧ ¬ ("CascadeType.ALL".data <:+:
        (generate_many_to_many_annotation_body true true true true
          (some "Order")).data) :=
  spec_C9_many_to_many_cascades true true true true (some "Order")

/-- C10: the single-file update treats a computed insert offset of 0 the
same as a missing offset — the falsiness guard raises the insertion-point
error and nothing is spliced or written (the state is returned untouched) —
even though offset 0 is a valid splice position for the splice-and-reparse
operation on any nonempty tree. -/
theorem spec_C10_zero_offset :
    (∀ (ai : TSTree → TSTree) (gib : TSTree → Option Nat)
        (t : TSTree) (p tmpl : String) (fs : FSState),
      gib (ai t) = some 0 →
      update_buffer ai gib t p tmpl fs
        = (Except.error "Unable to get field insert position", fs))
    ∧ (∀ (t : TSTree) (code : String), t.text ≠ [] →
      insert_code_into_position t code 0
        = Except.ok (TSTree.mk (code.data ++ t.text))) := by
  constructor
  · intro ai gib t p tmpl fs h
    simp [update_buffer, h, pyTruthyOptNat]
  · intro t code h
    simp [insert_code_into_position, h]

/-- C10 witness: a locator returning offset 0 fails the update with the
state untouched, while the splice operation itself accepts offset 0. -/
theorem spec_C10_zero_offset_witness :
    update_buffer id (fun _ => some 0) (convert_buffer_to_tree "class A \x7b\x7d")
        "A.java" "x" emptyFS
      = (Except.error "Unable to get field insert position", emptyFS)
    ∧ insert_code_into_position (convert_buffer_to_tree "class A \x7b\x7d") "x" 0
      = Except.ok (TSTree.mk ("x".data ++ (convert_buffer_to_tree "class A \x7b\x7d").text)) :=
  ⟨spec_C10_zero_offset.1 id (fun _ => some 0)
      (convert_buffer_to_tree "class A \x7b\x7d") "A.java" "x" emptyFS rfl,
   spec_C10_zero_offset.2 (convert_buffer_to_tree "class A \x7b\x7d") "x" (by decide)⟩
